import Mathlib

/-!
Verification of the signed-link, rate-limiter and analytics-cache core of
the media backend (FastAPI service).

The embedding is shallow: the Python functions in `app/utils.py`,
`app/rate_limiter.py` and `app/cache.py` are translated into executable
Lean definitions.  Epoch times, TTLs and counters are `Int` (Python
integers); HMAC-SHA256 is treated as an abstract deterministic function
`String → String → String` (key, message ↦ hex digest), which is all the
round-trip and expiry properties depend on; mutation of the module-level
dictionaries becomes explicit state passing.
-/

namespace MediaBackend

/-! ## Link signer (`app/utils.py`) -/

/-- Default configuration values from `app/config.py`. -/
def STREAM_SIGNING_SECRET : String := "dev_stream"

def STREAM_LINK_TTL_SECONDS : Int := 600

def RATE_LIMIT_PER_MINUTE : Int := 10

def CACHE_TTL : Int := 300

/-- Embeds `sign_stream_path` (utils.py lines 7-11): the signature is the
HMAC-SHA256 hex digest, under the configured secret, of the canonical
message `path + "?exp=" + str(exp_epoch)`.  The HMAC primitive itself is a
parameter `hmac : key → message → digest`. -/
def sign_stream_path (hmac : String → String → String) (secret : String)
    (path : String) (exp_epoch : Int) : String :=
  hmac secret (path ++ "?exp=" ++ toString exp_epoch)

/-- Path minted by `generate_stream_url` (utils.py line 15) for a media id. -/
def stream_path (media_id : Int) : String :=
  "/media/stream/" ++ toString media_id

/-- Embeds the minting step of `generate_stream_url` (utils.py lines 13-19),
generalised over the resource path and the TTL (the source fixes
`path = "/media/stream/{media_id}"` and `ttl = STREAM_LINK_TTL_SECONDS`):
`exp = now + ttl`, `sig = sign_stream_path path exp`; the source then
URL-encodes the triple `(path, exp, sig)` into a query string. -/
def generate_stream_link (hmac : String → String → String) (secret : String)
    (path : String) (ttl now : Int) : String × Int × String :=
  let exp := now + ttl
  let sig := sign_stream_path hmac secret path exp
  (path, exp, sig)

/-- Embeds `verify_stream_signature` (utils.py lines 21-25): reject when
`exp < now` (the current time is strictly past the expiry), otherwise
recompute the expected signature and compare it with the supplied one
(`hmac.compare_digest` is boolean string equality, computed in constant
time). -/
def verify_stream_signature (hmac : String → String → String) (secret : String)
    (path : String) (exp : Int) (sig : String) (now : Int) : Bool :=
  if exp < now then
    false
  else
    sign_stream_path hmac secret path exp == sig

/-- A concrete stand-in HMAC used only to evaluate the embedding at
concrete inputs (witnesses and counterexamples); the theorems themselves
hold for every deterministic `hmac` function. -/
def cHmac (key message : String) : String :=
  key ++ "|" ++ message

/-! ## Rate limiter (`app/rate_limiter.py`) -/

/-- The rate-limit metadata dictionary built by `check_rate_limit`
(rate_limiter.py lines 57-62). -/
structure RateLimitInfo where
  limit : Int
  remaining : Int
  reset_at : Int
  current_count : Int
deriving DecidableEq, Repr

/-- Embeds `_cleanup_old_requests` (rate_limiter.py lines 35-38): pop
entries from the front of the deque while the front entry is strictly
older than the window. -/
def cleanup_old_requests (window now : Int) : List Int → List Int
  | [] => []
  | t :: ts =>
    if now - t > window then cleanup_old_requests window now ts else t :: ts

/-- The limiter's mutable state (rate_limiter.py line 18): a
`defaultdict(deque)` from client identity to its timestamp sequence; an
absent key reads as the empty sequence. -/
structure RateLimiterState where
  requests : String → List Int

/-- The state of a freshly constructed `RateLimiter()`. -/
def emptyLimiter : RateLimiterState := ⟨fun _ => []⟩

/-- Embeds `check_rate_limit` (rate_limiter.py lines 40-75) for an already
resolved client identity, parameterised by the configured `limit`
(`settings.RATE_LIMIT_PER_MINUTE`) and `window` (`self._window_size`, 60):
purge the client's old entries in place, count, and either deny without
appending (when `current_count >= limit`) or append `now` and adjust the
reported remaining quota and count. -/
def check_rate_limit (limit window : Int) (st : RateLimiterState)
    (client : String) (now : Int) : (Bool × RateLimitInfo) × RateLimiterState :=
  let cleaned := cleanup_old_requests window now (st.requests client)
  let currentCount : Int := cleaned.length
  let info : RateLimitInfo :=
    ⟨limit, max 0 (limit - currentCount), now + window, currentCount⟩
  if currentCount ≥ limit then
    ((false, info), ⟨fun c => if c = client then cleaned else st.requests c⟩)
  else
    ((true, ⟨limit, info.remaining - 1, now + window, currentCount + 1⟩),
      ⟨fun c => if c = client then cleaned ++ [now] else st.requests c⟩)

/-- Runs a sequence of `(client, now)` calls through `check_rate_limit`,
collecting the allow/deny decisions and threading the state. -/
def runQueries (limit window : Int) :
    RateLimiterState → List (String × Int) → List Bool × RateLimiterState
  | st, [] => ([], st)
  | st, q :: qs =>
    let r := check_rate_limit limit window st q.1 q.2
    let rest := runQueries limit window r.2 qs
    (r.1.1 :: rest.1, rest.2)

/-! ## Analytics cache (`app/cache.py`)

The cache backend (Redis) is an external collaborator; it is modelled from
the spec's CacheEntry contract as a key/value store in which an entry
written with TTL `t` at time `s` is readable until time `s + t` and `DEL`
removes it immediately. -/

/-- Modelled from the spec: the state of the external cache backend — a
map from key to the stored string value together with its absolute expiry
time (`CacheEntry`: key, serialized value, ttl). -/
structure RedisState where
  store : String → Option (String × Int)

/-- Modelled from the spec: Redis `GET` — the value is returned while the
entry has not yet reached its expiry time, otherwise the key reads as
absent. -/
def redisGet (b : RedisState) (key : String) (now : Int) : Option String :=
  match b.store key with
  | some v => if now < v.2 then some v.1 else none
  | none => none

/-- Modelled from the spec: Redis `SETEX` — store the value under the key
with absolute expiry `now + ttl`. -/
def redisSetex (b : RedisState) (key : String) (ttl : Int) (v : String)
    (now : Int) : RedisState :=
  ⟨fun k => if k = key then some (v, now + ttl) else b.store k⟩

/-- Modelled from the spec: Redis `DEL` — remove the key and report how
many live entries were removed (0 when the entry was already expired or
never existed). -/
def redisDel (b : RedisState) (key : String) (now : Int) : Int × RedisState :=
  (match redisGet b key now with
    | some _ => 1
    | none => 0,
   ⟨fun k => if k = key then none else b.store k⟩)

/-- The `CacheService` state (cache.py lines 15-34): an optional connected
backend client; `none` is the no-cache fallback mode entered when the
connection attempt fails. -/
structure CacheState where
  redis : Option RedisState

/-- The cache key built by all three operations (cache.py line 42):
`"analytics:media:<media_id>"`. -/
def cache_key (media_id : Int) : String :=
  "analytics:media:" ++ toString media_id

/-- Embeds `get_analytics` (cache.py lines 36-54): without a client,
report a miss; otherwise read the key and, when the cached string is
non-empty (Python truthiness), deserialize it.  `loads` models
`json.loads`, returning `none` on a decode error, which the source catches
and turns into a miss. -/
def get_analytics {V : Type} (loads : String → Option V) (st : CacheState)
    (media_id : Int) (now : Int) : Option V :=
  match st.redis with
  | none => none
  | some b =>
    match redisGet b (cache_key media_id) now with
    | some s => if s != "" then loads s else none
    | none => none

/-- Embeds `set_analytics` (cache.py lines 56-76): without a client,
report a failed write; otherwise serialize the snapshot (`dumps` models
`json.dumps`) and `SETEX` it with the configured TTL, reporting success. -/
def set_analytics {V : Type} (dumps : V → String) (st : CacheState)
    (media_id : Int) (analytics_data : V) (cacheTTL now : Int) :
    Bool × CacheState :=
  match st.redis with
  | none => (false, st)
  | some b =>
    (true, ⟨some (redisSetex b (cache_key media_id) cacheTTL
      (dumps analytics_data) now)⟩)

/-- Embeds `invalidate_analytics` (cache.py lines 78-94): without a
client, report `false`; otherwise `DEL` the key and report whether an
entry was actually removed. -/
def invalidate_analytics (st : CacheState) (media_id : Int) (now : Int) :
    Bool × CacheState :=
  match st.redis with
  | none => (false, st)
  | some b =>
    let r := redisDel b (cache_key media_id) now
    (r.1 != 0, ⟨some r.2⟩)


/-! ## Client identity resolution (`app/rate_limiter.py`, `_get_client_id`) -/

/-- The parts of the incoming request that `_get_client_id` inspects:
`headers.get("X-Forwarded-For")`, `headers.get("X-Real-IP")` (absent
headers read as `none`), and `request.client.host` (`none` when the
transport peer is unavailable). -/
structure Request where
  xff : Option String
  realIp : Option String
  clientHost : Option String

/-- Python truthiness of an optional string: `None` and `""` are falsy. -/
def strTruthy : Option String → Bool
  | none => false
  | some s => s != ""

/-- Helper for `splitComma`: accumulates the current field (reversed) and
starts a new field at each comma. -/
def splitCommaAux : List Char → List Char → List String
  | [], acc => [String.mk acc.reverse]
  | c :: cs, acc =>
    if c = ',' then String.mk acc.reverse :: splitCommaAux cs []
    else splitCommaAux cs (c :: acc)

/-- Python's `s.split(",")`, embedded as a structural operation on the
character list so that it computes: splits at every comma and always
returns at least one (possibly empty) field. -/
def splitComma (s : String) : List String :=
  splitCommaAux s.data []

/-- Python's `s.strip()`: drop leading and trailing whitespace. -/
def pyStrip (s : String) : String :=
  String.mk (((s.data.dropWhile Char.isWhitespace).reverse.dropWhile
    Char.isWhitespace).reverse)

/-- Embeds `_get_client_id` (rate_limiter.py lines 21-33): if the
forwarded-for header is truthy, return its first comma-separated entry
stripped of whitespace; else if the real-ip header is truthy, return it;
else the peer host when available, else `"unknown"`. -/
def get_client_id (r : Request) : String :=
  if strTruthy r.xff then
    pyStrip ((splitComma (r.xff.getD "")).headD "")
  else if strTruthy r.realIp then
    r.realIp.getD ""
  else
    match r.clientHost with
    | some h => h
    | none => "unknown"

/-- The claim's words, as stated: use the forwarded-for header whenever it
is PRESENT (regardless of its value), else the real-ip header whenever it
is present, else the peer host, else `"unknown"`. -/
def client_id_claimed (r : Request) : String :=
  match r.xff with
  | some fwd => pyStrip ((splitComma fwd).headD "")
  | none =>
    match r.realIp with
    | some ri => ri
    | none =>
      match r.clientHost with
      | some h => h
      | none => "unknown"

/-- Last resort of the amended claim: the peer host when available, else
`"unknown"`. -/
def client_id_amended_host : Option String → String
  | some h => h
  | none => "unknown"

/-- Fallback chain of the amended claim below the forwarded-for header:
real-ip header when present and non-empty, else peer host, else
`"unknown"`. -/
def client_id_amended_fallback : Option String → Option String → String
  | some ri, ch => if ri ≠ "" then ri else client_id_amended_host ch
  | none, ch => client_id_amended_host ch

/-- The claim's words as amended: a header is used only when it is present
with a non-empty value. -/
def client_id_amended (r : Request) : String :=
  match r.xff with
  | some fwd =>
    if fwd ≠ "" then pyStrip ((splitComma fwd).headD "")
    else client_id_amended_fallback r.realIp r.clientHost
  | none => client_id_amended_fallback r.realIp r.clientHost

/-! ## Theorems for the link signer -/

/-- Claim C1: minting at time `t0` with TTL `ttl` produces
`exp = t0 + ttl` and `sig = HMAC-SHA256(secret, path ++ "?exp=" ++ decimal exp)`;
verification of the minted triple at `now = t0` returns `true`, and at any
`now` strictly greater than `exp` it returns `false`.  TTLs are
durations in seconds, so `0 ≤ ttl`. -/
theorem claim_C1_mint_verify_roundtrip
    (hmac : String → String → String) (secret path : String)
    (ttl t0 now : Int) (httl : 0 ≤ ttl) (hnow : t0 + ttl < now) :
    generate_stream_link hmac secret path ttl t0 =
      (path, t0 + ttl, hmac secret (path ++ "?exp=" ++ toString (t0 + ttl))) ∧
    verify_stream_signature hmac secret path (t0 + ttl)
      (hmac secret (path ++ "?exp=" ++ toString (t0 + ttl))) t0 = true ∧
    verify_stream_signature hmac secret path (t0 + ttl)
      (hmac secret (path ++ "?exp=" ++ toString (t0 + ttl))) now = false := by
  refine ⟨rfl, ?_, ?_⟩
  · have hlt : ¬ t0 + ttl < t0 := by omega
    simp [verify_stream_signature, sign_stream_path, hlt]
  · simp [verify_stream_signature, hnow]

/-- Witness for C1 at a concrete input: path `/media/stream/42`,
`ttl = 600`, `t0 = 1000`, `now = 1601`, with the stand-in HMAC. -/
theorem claim_C1_witness :
    (0 : Int) ≤ 600 ∧ (1000 : Int) + 600 < 1601 ∧
    (generate_stream_link cHmac "dev_stream" "/media/stream/42" 600 1000 =
      ("/media/stream/42", 1600,
        cHmac "dev_stream" ("/media/stream/42" ++ "?exp=" ++ toString (1600 : Int))) ∧
    verify_stream_signature cHmac "dev_stream" "/media/stream/42" 1600
      (cHmac "dev_stream" ("/media/stream/42" ++ "?exp=" ++ toString (1600 : Int))) 1000 = true ∧
    verify_stream_signature cHmac "dev_stream" "/media/stream/42" 1600
      (cHmac "dev_stream" ("/media/stream/42" ++ "?exp=" ++ toString (1600 : Int))) 1601 = false) :=
  ⟨by decide, by decide,
    claim_C1_mint_verify_roundtrip cHmac "dev_stream" "/media/stream/42"
      600 1000 1601 (by decide) (by decide)⟩

/-- Counterexample to claim C2 as stated: the claim says verification
returns `false` whenever `now ≥ exp`, in particular at `now = exp = 1600`
for a link minted with `ttl = 600` at `t = 1000`; but the source checks
`exp < now`, so at `now = 1600` the correctly signed link still verifies
to `true`. -/
theorem claim_C2_counterexample :
    verify_stream_signature cHmac "dev_stream" "/media/stream/42" 1600
      (sign_stream_path cHmac "dev_stream" "/media/stream/42" 1600) 1600 = true := by
  decide

/-- Claim C2 (amended): verification returns `false` whenever `now` is
strictly greater than `exp` — regardless of the signature supplied — while
at `now = exp` a correctly signed link still verifies. -/
theorem claim_C2_expiry_boundary
    (hmac : String → String → String) (secret path sig : String)
    (exp now : Int) (h : exp < now) :
    verify_stream_signature hmac secret path exp sig now = false ∧
    verify_stream_signature hmac secret path exp
      (sign_stream_path hmac secret path exp) exp = true := by
  constructor
  · simp [verify_stream_signature, h]
  · simp [verify_stream_signature]

/-- Witness for the amended C2 at `exp = 1600`, `now = 1601`. -/
theorem claim_C2_witness :
    (1600 : Int) < 1601 ∧
    (verify_stream_signature cHmac "dev_stream" "/media/stream/42" 1600 "junk" 1601 = false ∧
    verify_stream_signature cHmac "dev_stream" "/media/stream/42" 1600
      (sign_stream_path cHmac "dev_stream" "/media/stream/42" 1600) 1600 = true) :=
  ⟨by decide,
    claim_C2_expiry_boundary cHmac "dev_stream" "/media/stream/42" "junk"
      1600 1601 (by decide)⟩

/-! ## Theorems for the rate limiter -/

/-- Claim C3: with `limit = 10` and `window = 60`, ten requests from
client `C` at `t = 0` are all admitted, an eleventh at `t = 0` is denied,
and a request at `t = 61` is admitted again, because the entries recorded
at `t = 0` are strictly older than the trailing window and are purged. -/
theorem claim_C3_sliding_window :
    (runQueries RATE_LIMIT_PER_MINUTE 60 emptyLimiter
        (List.replicate 10 ("C", (0 : Int)) ++ [("C", 0), ("C", 61)])).1 =
      List.replicate 10 true ++ [false, true] := by
  decide

/-- Claim C4: whenever the post-purge count reaches the limit, the call
denies without appending: the client's stored sequence becomes exactly the
purged sequence, every other client's sequence is untouched, and the call
returns `allowed = false` with `remaining = 0`,
`reset_at = now + window` and `current_count` equal to the post-purge
count. -/
theorem claim_C4_denial_no_append (limit window : Int) (st : RateLimiterState)
    (client : String) (now : Int)
    (h : ((cleanup_old_requests window now (st.requests client)).length : Int) ≥ limit) :
    check_rate_limit limit window st client now =
      ((false,
        ⟨limit, 0, now + window,
          ((cleanup_old_requests window now (st.requests client)).length : Int)⟩),
        ⟨fun c => if c = client then cleanup_old_requests window now (st.requests client)
          else st.requests c⟩) := by
  have hmax : max 0 (limit - ((cleanup_old_requests window now (st.requests client)).length : Int)) = 0 := by
    omega
  simp [check_rate_limit, h, hmax]

/-- Witness for C4: client `A` holds two fresh entries, the limit is 2, so
a request at `t = 5` is denied and nothing is appended. -/
theorem claim_C4_witness :
    (((cleanup_old_requests 60 5
        ((fun c => if c = "A" then [(5 : Int), 5] else []) "A")).length : Int) ≥ 2) ∧
    check_rate_limit 2 60 ⟨fun c => if c = "A" then [(5 : Int), 5] else []⟩ "A" 5 =
      ((false,
        ⟨2, 0, 65,
          ((cleanup_old_requests 60 5
            ((fun c => if c = "A" then [(5 : Int), 5] else []) "A")).length : Int)⟩),
        ⟨fun c => if c = "A" then cleanup_old_requests 60 5
            ((fun c => if c = "A" then [(5 : Int), 5] else []) "A")
          else (fun c => if c = "A" then [(5 : Int), 5] else []) c⟩) :=
  ⟨by decide,
    claim_C4_denial_no_append 2 60 ⟨fun c => if c = "A" then [(5 : Int), 5] else []⟩
      "A" 5 (by decide)⟩

/-- A `check_rate_limit` call for one client leaves every other client's
stored sequence unchanged. -/
theorem check_rate_limit_frame (limit window : Int) (st : RateLimiterState)
    (c1 c2 : String) (now : Int) (h : c2 ≠ c1) :
    ((check_rate_limit limit window st c1 now).2).requests c2 = st.requests c2 := by
  simp only [check_rate_limit]
  split <;> simp [h]

/-- The decision and metadata returned by `check_rate_limit` depend only on
the calling client's own stored sequence. -/
theorem check_rate_limit_congr (limit window : Int) (st1 st2 : RateLimiterState)
    (c : String) (now : Int) (h : st1.requests c = st2.requests c) :
    (check_rate_limit limit window st1 c now).1 =
      (check_rate_limit limit window st2 c now).1 := by
  simp only [check_rate_limit, h]
  split <;> rfl

/-- A whole sequence of calls attributed to `c1` leaves any other client's
stored sequence unchanged. -/
theorem runQueries_frame (limit window : Int) (c1 c2 : String) (h : c2 ≠ c1) :
    ∀ (nows : List Int) (st : RateLimiterState),
      ((runQueries limit window st (nows.map (fun t => (c1, t)))).2).requests c2 =
        st.requests c2
  | [], st => rfl
  | t :: ts, st => by
    simpa [runQueries, check_rate_limit_frame limit window st c1 c2 t h] using
      runQueries_frame limit window c1 c2 h ts
        (check_rate_limit limit window st c1 t).2

/-- Claim C8: for distinct clients `c1 ≠ c2`, any sequence of
`check_rate_limit` calls attributed to `c1` leaves `c2`'s stored timestamp
sequence unchanged, and the decision and quota metadata a subsequent call
for `c2` reports are the same as if `c1`'s calls had never happened. -/
theorem claim_C8_per_client_isolation (limit window : Int)
    (st : RateLimiterState) (c1 c2 : String) (nows : List Int) (now2 : Int)
    (h : c1 ≠ c2) :
    ((runQueries limit window st (nows.map (fun t => (c1, t)))).2).requests c2 =
      st.requests c2 ∧
    (check_rate_limit limit window
        (runQueries limit window st (nows.map (fun t => (c1, t)))).2 c2 now2).1 =
      (check_rate_limit limit window st c2 now2).1 := by
  have hframe := runQueries_frame limit window c1 c2 (Ne.symm h) nows st
  exact ⟨hframe, check_rate_limit_congr limit window _ st c2 now2 hframe⟩

/-- Witness for C8: two calls for client `A` at `t = 1, 2` do not disturb
client `B`'s (empty) sequence nor the outcome of `B`'s call at `t = 30`. -/
theorem claim_C8_witness :
    "A" ≠ "B" ∧
    (((runQueries 10 60 emptyLimiter
        ([1, 2].map (fun t => ("A", (t : Int))))).2).requests "B" =
      emptyLimiter.requests "B" ∧
    (check_rate_limit 10 60
        (runQueries 10 60 emptyLimiter ([1, 2].map (fun t => ("A", (t : Int))))).2
        "B" 30).1 =
      (check_rate_limit 10 60 emptyLimiter "B" 30).1) :=
  ⟨by decide, claim_C8_per_client_isolation 10 60 emptyLimiter "A" "B" [1, 2] 30
    (by decide)⟩

/-- Purging never lengthens a client's sequence. -/
theorem cleanup_old_requests_length_le (window now : Int) :
    ∀ l : List Int, (cleanup_old_requests window now l).length ≤ l.length
  | [] => Nat.le_refl _
  | t :: ts => by
    simp only [cleanup_old_requests]
    split
    · exact Nat.le_succ_of_le (cleanup_old_requests_length_le window now ts)
    · exact Nat.le_refl _

/-- One `check_rate_limit` call preserves the bound `length ≤ limit` on
every client's stored sequence. -/
theorem check_rate_limit_preserves_bound (limit window : Int)
    (st : RateLimiterState) (c : String) (now : Int)
    (h : ∀ c0, ((st.requests c0).length : Int) ≤ limit) :
    ∀ c0, ((((check_rate_limit limit window st c now).2).requests c0).length : Int) ≤ limit := by
  intro c0
  have hclean : ((cleanup_old_requests window now (st.requests c)).length : Int) ≤
      ((st.requests c).length : Int) := by
    exact_mod_cast cleanup_old_requests_length_le window now (st.requests c)
  simp only [check_rate_limit]
  split
  · by_cases hc : c0 = c
    · subst hc
      simpa using le_trans hclean (h c0)
    · simpa [hc] using h c0
  · rename_i hlt
    by_cases hc : c0 = c
    · subst hc
      have hlen : (cleanup_old_requests window now (st.requests c0) ++ [now]).length =
          (cleanup_old_requests window now (st.requests c0)).length + 1 := by
        simp
      simp only [if_pos rfl, hlen]
      push_cast
      omega
    · simpa [hc] using h c0

/-- Every sequence of calls preserves the bound `length ≤ limit`. -/
theorem runQueries_preserves_bound (limit window : Int) :
    ∀ (qs : List (String × Int)) (st : RateLimiterState),
      (∀ c0, ((st.requests c0).length : Int) ≤ limit) →
      ∀ c0, ((((runQueries limit window st qs).2).requests c0).length : Int) ≤ limit
  | [], _, h => h
  | q :: qs, st, h =>
    runQueries_preserves_bound limit window qs
      (check_rate_limit limit window st q.1 q.2).2
      (check_rate_limit_preserves_bound limit window st q.1 q.2 h)

/-- Claim C10: starting from the empty limiter state, after any sequence of
`check_rate_limit` calls every client's stored timestamp sequence holds at
most `limit` entries (each call appends at most one timestamp, and only
when the post-purge count is strictly below the limit). -/
theorem claim_C10_bounded_window (limit window : Int) (qs : List (String × Int))
    (c : String) (h : 0 ≤ limit) :
    ((((runQueries limit window emptyLimiter qs).2).requests c).length : Int) ≤ limit :=
  runQueries_preserves_bound limit window qs emptyLimiter
    (fun _ => by simpa [emptyLimiter] using h) c

/-- Witness for C10 on a concrete trace: limit 10, three calls. -/
theorem claim_C10_witness :
    (0 : Int) ≤ 10 ∧
    ((((runQueries 10 60 emptyLimiter [("A", 0), ("A", 1), ("B", 2)]).2).requests "A").length : Int) ≤ 10 :=
  ⟨by decide,
    claim_C10_bounded_window 10 60 [("A", 0), ("A", 1), ("B", 2)] "A" (by decide)⟩

/-! ## Theorems for the analytics cache -/

/-- Claim C5: with a connected backend, a successful
`set_analytics` followed by a `get_analytics` for the same media id
performed before the TTL elapses (and with no intervening invalidation)
returns the cached snapshot; and after `invalidate_analytics`, a
subsequent `get_analytics` returns absent regardless of the entry's
remaining TTL.  `loads`/`dumps` model the JSON round trip
(`loads (dumps v) = some v`, and a serialized snapshot is never the empty
string). -/
theorem claim_C5_cache_aside_consistency {V : Type}
    (loads : String → Option V) (dumps : V → String) (b : RedisState)
    (st0 : CacheState) (media_id : Int) (analytics_data : V)
    (ttl t_put t_get now_inv now2 : Int)
    (hrt : loads (dumps analytics_data) = some analytics_data)
    (hne : dumps analytics_data ≠ "")
    (hfresh : t_get < t_put + ttl) :
    (set_analytics dumps ⟨some b⟩ media_id analytics_data ttl t_put).1 = true ∧
    get_analytics loads (set_analytics dumps ⟨some b⟩ media_id analytics_data ttl t_put).2
      media_id t_get = some analytics_data ∧
    get_analytics loads (invalidate_analytics st0 media_id now_inv).2
      media_id now2 = none := by
  refine ⟨rfl, ?_, ?_⟩
  · simp only [set_analytics, get_analytics, redisGet, redisSetex]
    simp [hfresh, hne, hrt]
  · rcases st0 with ⟨_ | b0⟩
    · simp [invalidate_analytics, get_analytics]
    · simp [invalidate_analytics, get_analytics, redisDel, redisGet]

/-- Witness for C5 with `V = String`, identity serialization, snapshot
`"snap7"`, TTL 300, put at `t = 0`, get at `t = 299`, invalidation
exercised on a disconnected state. -/
theorem claim_C5_witness :
    ((fun s : String => some s) ((fun v : String => v) "snap7") = some "snap7" ∧
      (fun v : String => v) "snap7" ≠ "" ∧ (299 : Int) < 0 + 300) ∧
    ((set_analytics (fun v : String => v) (⟨some ⟨fun _ => none⟩⟩ : CacheState)
        42 "snap7" 300 0).1 = true ∧
    get_analytics (fun s : String => some s)
      (set_analytics (fun v : String => v) (⟨some ⟨fun _ => none⟩⟩ : CacheState)
        42 "snap7" 300 0).2 42 299 = some "snap7" ∧
    get_analytics (fun s : String => some s)
      (invalidate_analytics (⟨none⟩ : CacheState) 42 50).2 42 1000000 = none) :=
  ⟨⟨rfl, by decide, by decide⟩,
    claim_C5_cache_aside_consistency (fun s => some s) (fun v => v) ⟨fun _ => none⟩
      ⟨none⟩ 42 "snap7" 300 0 299 50 1000000 rfl (by decide) (by decide)⟩

/-- Claim C6: when no cache client is connected, `get_analytics` always
reports a miss, `set_analytics` always reports a failed write, and
`invalidate_analytics` always reports `false`, all leaving the state
unchanged; the embedded operations are total functions, mirroring the
source's early returns on the disconnected path, so no exception escapes. -/
theorem claim_C6_degraded_mode {V : Type}
    (loads : String → Option V) (dumps : V → String) (st : CacheState)
    (media_id : Int) (analytics_data : V) (ttl t1 t2 t3 : Int)
    (h : st.redis = none) :
    get_analytics loads st media_id t1 = none ∧
    set_analytics dumps st media_id analytics_data ttl t2 = (false, st) ∧
    invalidate_analytics st media_id t3 = (false, st) := by
  rcases st with ⟨_ | b⟩
  · exact ⟨rfl, rfl, rfl⟩
  · simp at h

/-- Witness for C6 on the disconnected state. -/
theorem claim_C6_witness :
    (CacheState.redis ⟨none⟩ = none) ∧
    (get_analytics (fun s : String => some s) (⟨none⟩ : CacheState) 42 10 = none ∧
    set_analytics (fun v : String => v) (⟨none⟩ : CacheState) 42 "snap" 300 11 =
      (false, ⟨none⟩) ∧
    invalidate_analytics (⟨none⟩ : CacheState) 42 12 = (false, ⟨none⟩)) :=
  ⟨rfl, claim_C6_degraded_mode (fun s => some s) (fun v => v) ⟨none⟩ 42 "snap"
    300 10 11 12 rfl⟩

/-! ## Theorems for client identity resolution -/

/-- Counterexample to claim C7 as stated: when the forwarded-for header is
present but empty, the source's truthiness test skips it and uses the
real-ip header, while the claim as stated would resolve the identity to
the (empty) first entry of the forwarded-for header. -/
theorem claim_C7_counterexample :
    get_client_id ⟨some "", some "9.9.9.9", some "1.1.1.1"⟩ = "9.9.9.9" ∧
    client_id_claimed ⟨some "", some "9.9.9.9", some "1.1.1.1"⟩ = "" := by
  constructor <;> rfl

/-- Claim C7 (amended): the client identity is the first comma-separated,
whitespace-stripped entry of the forwarded-for header when that header is
present and non-empty; otherwise the real-ip header value when present and
non-empty; otherwise the transport peer address when available; otherwise
`"unknown"`. -/
theorem claim_C7_client_identity (r : Request) :
    get_client_id r = client_id_amended r := by
  rcases r with ⟨xff, realIp, clientHost⟩
  rcases xff with _ | fwd
  · rcases realIp with _ | ri
    · cases clientHost <;> rfl
    · by_cases hri : ri = ""
      · subst hri
        cases clientHost <;> rfl
      · simp [get_client_id, client_id_amended, client_id_amended_fallback,
          client_id_amended_host, strTruthy, hri]
  · by_cases hfwd : fwd = ""
    · subst hfwd
      rcases realIp with _ | ri
      · cases clientHost <;> rfl
      · by_cases hri : ri = ""
        · subst hri
          cases clientHost <;> rfl
        · simp [get_client_id, client_id_amended, client_id_amended_fallback,
            client_id_amended_host, strTruthy, hri]
    · simp [get_client_id, client_id_amended, client_id_amended_fallback,
        client_id_amended_host, strTruthy, hfwd]

end MediaBackend
